import Mathlib

/-!
# Verification of the Mahidol-Forum points ledger and role resolver

Shallow embedding of `backend/app/utils/points.py` (`award_points`,
`deduct_points`, `check_daily_login`), `backend/app/routers/line_groups.py`
(`_is_admin`) and `backend/app/routers/superadmin.py` (`_is_superadmin`).

The Supabase database is modelled as explicit state: a `profiles` table
(association list from user id to `Profile`), an `admins` table and an
append-only `point_records` ledger.  Each remote call made by the Python
code can succeed, return a response carrying an `.error` field, or raise an
exception; a `StepResult` per call (collected into a schedule record per
operation) makes those outcomes explicit, so the `try/except` and
`hasattr(resp, 'error')` handling of the source is reproduced faithfully.
-/

namespace Forum

/-- Outcome of one remote database call:
`ok` — call succeeded; `err` — the response object carries a non-null
`.error` field (the Python code checks `hasattr(resp, 'error') and
resp.error`); `exn` — the call raised an exception, to be caught by the
enclosing `try/except`. -/
inductive StepResult
  | ok
  | err
  | exn
deriving DecidableEq, Repr

/-- A `last_login_date` value as stored on a profile row: SQL `NULL`, a
parseable date (abstracted to an integer day number), or a string that
`datetime.fromisoformat` fails to parse (the `except (ValueError,
AttributeError)` branch of `check_daily_login`). -/
inductive StoredDate
  | null
  | valid (day : Int)
  | malformed
deriving DecidableEq, Repr

/-- One row of the `point_records` ledger (`user_id`, signed `points`,
`reason`). -/
structure PointRecord where
  user_id : String
  points : Int
  reason : String
deriving DecidableEq, Repr

/-- One row of the `profiles` table; `total_points` is `Option Int` because
the column may be `NULL` (the code defends with `.get('total_points', 0)
or 0`). -/
structure Profile where
  total_points : Option Int
  level : Int
  last_login_date : StoredDate
  role : Option String
deriving DecidableEq, Repr

/-- The database state: `profiles` and `admins` as association lists keyed
by user id (`admins` values are the `is_active` flag), plus the append-only
`point_records` ledger. -/
structure DB where
  profiles : List (String × Profile)
  admins : List (String × Bool)
  point_records : List PointRecord
deriving DecidableEq, Repr

/-- `supabase.table('profiles').update(...).eq('id', uid)`: apply `f` to
every profile row whose id equals `uid` (no-op when the row is absent). -/
def DB.setProfile (db : DB) (uid : String) (f : Profile → Profile) : DB :=
  { db with
    profiles := db.profiles.map (fun p => if p.1 = uid then (p.1, f p.2) else p) }

/-- `supabase.table('point_records').insert(...)`: append one ledger row. -/
def DB.insertRecord (db : DB) (r : PointRecord) : DB :=
  { db with point_records := db.point_records ++ [r] }

/-- Read a user's stored `total_points` column (outer `none` = row absent). -/
def DB.totalPointsOf (db : DB) (uid : String) : Option (Option Int) :=
  (db.profiles.lookup uid).map Profile.total_points

/-- Read a user's stored `level` column (`none` = row absent). -/
def DB.levelOf (db : DB) (uid : String) : Option Int :=
  (db.profiles.lookup uid).map Profile.level

/-- Read a user's stored `last_login_date` column (`none` = row absent). -/
def DB.lastLoginOf (db : DB) (uid : String) : Option StoredDate :=
  (db.profiles.lookup uid).map Profile.last_login_date

/-- `profile_resp.data[0].get('total_points', 0) or 0`: a `NULL` (or `0`)
stored value collapses to `0`. -/
def currentOf (p : Profile) : Int :=
  match p.total_points with
  | none => 0
  | some n => n

/-- Schedule of the three remote calls made by `award_points`:
ledger insert, profile select, profile update. -/
structure AwardSched where
  insertRec : StepResult
  selectProf : StepResult
  updateProf : StepResult
deriving DecidableEq, Repr

/-- The all-successful schedule for `award_points`. -/
def AwardSched.allOk : AwardSched :=
  ⟨StepResult.ok, StepResult.ok, StepResult.ok⟩

/-- `award_points(supabase, user_id, points, reason)` from
`backend/app/utils/points.py`.  Returns the boolean result paired with the
database state after the call.  Guard `points <= 0` first; then insert the
ledger record; then read `total_points`; then write
`new_total = current + points` and `new_level = min(10, 1 + new_total //
100)` (Python `//` is floor division, `Int.fdiv`).  Every failing step and
every exception yields `false`; an exception after the insert leaves the
inserted record behind. -/
def award_points (db : DB) (user_id : String) (points : Int) (reason : String)
    (sched : AwardSched) : Bool × DB :=
  if points ≤ 0 then (false, db)
  else
    match sched.insertRec with
    | .err => (false, db)
    | .exn => (false, db)
    | .ok =>
      let db1 := db.insertRecord ⟨user_id, points, reason⟩
      match sched.selectProf with
      | .err => (false, db1)
      | .exn => (false, db1)
      | .ok =>
        match db1.profiles.lookup user_id with
        | none => (false, db1)
        | some prof =>
          let current := currentOf prof
          let new_total := current + points
          let new_level := min 10 (1 + Int.fdiv new_total 100)
          match sched.updateProf with
          | .err => (false, db1)
          | .exn => (false, db1)
          | .ok =>
            (true, db1.setProfile user_id
              (fun p => { p with total_points := some new_total, level := new_level }))

/-- Schedule of the three remote calls made by `deduct_points`:
profile select, ledger insert, profile update. -/
structure DeductSched where
  selectProf : StepResult
  insertRec : StepResult
  updateProf : StepResult
deriving DecidableEq, Repr

/-- The all-successful schedule for `deduct_points`. -/
def DeductSched.allOk : DeductSched :=
  ⟨StepResult.ok, StepResult.ok, StepResult.ok⟩

/-- `deduct_points(supabase, user_id, points, reason)` from
`backend/app/utils/points.py`.  Guard `points <= 0`; read `total_points`
(balance check `current_points < points` fails without touching the
ledger); insert the negative ledger record; write
`new_total = current - points` and
`new_level = max(1, min(10, 1 + new_total // 100))`. -/
def deduct_points (db : DB) (user_id : String) (points : Int) (reason : String)
    (sched : DeductSched) : Bool × DB :=
  if points ≤ 0 then (false, db)
  else
    match sched.selectProf with
    | .err => (false, db)
    | .exn => (false, db)
    | .ok =>
      match db.profiles.lookup user_id with
      | none => (false, db)
      | some prof =>
        let current := currentOf prof
        if current < points then (false, db)
        else
          match sched.insertRec with
          | .err => (false, db)
          | .exn => (false, db)
          | .ok =>
            let db1 := db.insertRecord ⟨user_id, -points, reason⟩
            let new_total := current - points
            let new_level := max 1 (min 10 (1 + Int.fdiv new_total 100))
            match sched.updateProf with
            | .err => (false, db1)
            | .exn => (false, db1)
            | .ok =>
              (true, db1.setProfile user_id
                (fun p => { p with total_points := some new_total, level := new_level }))

/-- Schedule of the remote calls made directly by `check_daily_login`
(profile select and `last_login_date` update), plus the schedule of the
nested `award_points` call. -/
structure DailySched where
  selectProf : StepResult
  updateDate : StepResult
  award : AwardSched
deriving DecidableEq, Repr

/-- The all-successful schedule for `check_daily_login`. -/
def DailySched.allOk : DailySched :=
  ⟨StepResult.ok, StepResult.ok, AwardSched.allOk⟩

/-- `check_daily_login(supabase, user_id)` from
`backend/app/utils/points.py`, with today's calendar date abstracted to the
integer `today`.  Read the profile; parse `last_login_date` (`NULL` skips
the comparison block, a malformed string parses to `None`); if the parsed
date equals `today` return `false` with no writes.  Otherwise update
`last_login_date = today`; if that update *returns an error* the code only
logs it and still awards ("即使更新失败，也尝试奖励积分"), whereas an
*exception* is caught by the outer `try/except` and yields `false`.
Finally return `award_points(user_id, 1, '每日登录')`. -/
def check_daily_login (db : DB) (user_id : String) (today : Int)
    (sched : DailySched) : Bool × DB :=
  match sched.selectProf with
  | .err => (false, db)
  | .exn => (false, db)
  | .ok =>
    match db.profiles.lookup user_id with
    | none => (false, db)
    | some prof =>
      let last_login : Option Int :=
        match prof.last_login_date with
        | .null => none
        | .valid d => some d
        | .malformed => none
      if last_login = some today then (false, db)
      else
        match sched.updateDate with
        | .exn => (false, db)
        | .err => award_points db user_id 1 "每日登录" sched.award
        | .ok =>
          let db1 := db.setProfile user_id
            (fun p => { p with last_login_date := StoredDate.valid today })
          award_points db1 user_id 1 "每日登录" sched.award

/-- Schedule of the two remote calls made by `_is_admin`: the `admins`
table query and the `profiles` role query. -/
structure AdminSched where
  adminQ : StepResult
  profQ : StepResult
deriving DecidableEq, Repr

/-- The all-successful schedule for `_is_admin`. -/
def AdminSched.allOk : AdminSched :=
  ⟨StepResult.ok, StepResult.ok⟩

/-- The `admins`-table query of `_is_admin`: a row with `id == uid` and
`is_active == true` exists. -/
def activeAdminExists (db : DB) (uid : String) : Bool :=
  db.admins.any (fun a => a.1 == uid && a.2)

/-- The `profiles` role read of `_is_admin` / `_is_superadmin`
(`none` when the row is absent or the column is `NULL`). -/
def profileRole (db : DB) (uid : String) : Option String :=
  match db.profiles.lookup uid with
  | none => none
  | some p => p.role

/-- `role in ('admin', 'moderator', 'superadmin')` (Python `None in (...)`
is `False`). -/
def roleIsPrivileged (r : Option String) : Bool :=
  r == some "admin" || r == some "moderator" || r == some "superadmin"

/-- `_is_admin(user, supabase)` from `backend/app/routers/line_groups.py`.
An exception anywhere is caught and yields `false`.  An error response
from the `admins` query merely skips the active-admin shortcut; an error
response from the `profiles` query yields `false`. -/
def is_admin (db : DB) (uid : String) (sched : AdminSched) : Bool :=
  let profileCheck : Bool :=
    match sched.profQ with
    | .exn => false
    | .err => false
    | .ok => roleIsPrivileged (profileRole db uid)
  match sched.adminQ with
  | .exn => false
  | .err => profileCheck
  | .ok => if activeAdminExists db uid then true else profileCheck

/-- `_is_superadmin(user, supabase)` from
`backend/app/routers/superadmin.py`: a single `profiles` role query, any
failure yields `false`, otherwise `role == 'superadmin'`. -/
def is_superadmin (db : DB) (uid : String) (q : StepResult) : Bool :=
  match q with
  | .exn => false
  | .err => false
  | .ok => profileRole db uid == some "superadmin"

/-- Run `check_daily_login` once per entry of `days`, threading the
database state (all remote calls succeeding). -/
def dailyLoginRun (db : DB) (uid : String) (days : List Int) : DB :=
  match days with
  | [] => db
  | d :: rest => dailyLoginRun (check_daily_login db uid d DailySched.allOk).2 uid rest

/-- `freshDays last days = true` when each day of `days` differs from the
most recently stamped login date (starting from `last`) — i.e. every call
of the run is made on a calendar day that is not the recorded one. -/
def freshDays : StoredDate → List Int → Bool
  | _, [] => true
  | last, d :: rest => decide (last ≠ StoredDate.valid d) && freshDays (StoredDate.valid d) rest

/-- The profile invariant of the spec: `total_points` is a non-negative
stored integer and `level = min(10, 1 + total_points // 100)`. -/
def ProfileInv (p : Profile) : Prop :=
  ∃ n : Int, p.total_points = some n ∧ 0 ≤ n ∧ p.level = min 10 (1 + Int.fdiv n 100)

/-- Sample database: user `u` with `total_points = 95`, `level = 1`, no
login stamp, role `user`; empty ledger. -/
def db95 : DB :=
  ⟨[("u", ⟨some 95, 1, StoredDate.null, some "user"⟩)], [], []⟩

/-- Sample database: user `u` with `total_points = 40`. -/
def db40 : DB :=
  ⟨[("u", ⟨some 40, 1, StoredDate.null, some "user"⟩)], [], []⟩

/-- Sample database: user `u` whose stored `total_points` is `NULL`. -/
def dbNull : DB :=
  ⟨[("u", ⟨none, 1, StoredDate.null, some "user"⟩)], [], []⟩

/-- Sample database: user `u` has an active `admins` row while
`profiles.role = "user"`. -/
def dbAdminUser : DB :=
  ⟨[("u", ⟨some 0, 1, StoredDate.null, some "user"⟩)], [("u", true)], []⟩

/-- Sample database: user `u` has `profiles.role = "moderator"` and no
`admins` row. -/
def dbModerator : DB :=
  ⟨[("u", ⟨some 0, 1, StoredDate.null, some "moderator"⟩)], [], []⟩

/-- Sample database: user `u` has `profiles.role = "user"` and no
`admins` row. -/
def dbPlainUser : DB :=
  ⟨[("u", ⟨some 0, 1, StoredDate.null, some "user"⟩)], [], []⟩

/-- Sample database: user `u` whose stored `last_login_date` is a string
that fails to parse. -/
def dbMalformed : DB :=
  ⟨[("u", ⟨some 0, 1, StoredDate.malformed, some "user"⟩)], [], []⟩

section Lemmas

/-- Looking up `uid` after a `setProfile`-style map applies `f` to the
looked-up row. -/
theorem lookup_map_update (uid : String) (f : Profile → Profile) :
    ∀ l : List (String × Profile),
      (l.map (fun p => if p.1 = uid then (p.1, f p.2) else p)).lookup uid
        = (l.lookup uid).map f := by
  intro l
  induction l with
  | nil => rfl
  | cons a t ih =>
    obtain ⟨k, b⟩ := a
    simp only [List.map_cons]
    by_cases h : k = uid
    · rw [if_pos h]
      subst h
      simp [List.lookup, ih]
    · rw [if_neg h]
      have hbeq : (uid == k) = false := beq_eq_false_iff_ne.mpr (fun hh => h hh.symm)
      simp [List.lookup, hbeq, ih]

/-- `setProfile` acts on lookups by mapping `f` over the result. -/
theorem lookup_setProfile (db : DB) (uid : String) (f : Profile → Profile) :
    (db.setProfile uid f).profiles.lookup uid = (db.profiles.lookup uid).map f :=
  lookup_map_update uid f db.profiles

/-- `insertRecord` leaves the `profiles` table unchanged. -/
theorem insertRecord_profiles (db : DB) (r : PointRecord) :
    (db.insertRecord r).profiles = db.profiles := rfl

/-- `setProfile` leaves the ledger unchanged. -/
theorem setProfile_records (db : DB) (uid : String) (f : Profile → Profile) :
    (db.setProfile uid f).point_records = db.point_records := rfl

/-- Closed form of a successful `award_points` call: the ledger row is
appended and the profile is rewritten with the new total and level. -/
theorem award_points_ok_spec (db : DB) (uid : String) (points : Int) (reason : String)
    (prof : Profile) (hpos : 0 < points)
    (hfind : db.profiles.lookup uid = some prof) :
    award_points db uid points reason AwardSched.allOk =
      (true, (db.insertRecord ⟨uid, points, reason⟩).setProfile uid
        (fun p => { p with
          total_points := some (currentOf prof + points),
          level := min 10 (1 + Int.fdiv (currentOf prof + points) 100) })) := by
  unfold award_points AwardSched.allOk
  rw [if_neg (not_le.mpr hpos)]
  have hfind1 : (db.insertRecord ⟨uid, points, reason⟩).profiles.lookup uid = some prof := by
    rw [insertRecord_profiles]; exact hfind
  simp [hfind1]

/-- Closed form of a successful `deduct_points` call. -/
theorem deduct_points_ok_spec (db : DB) (uid : String) (points : Int) (reason : String)
    (prof : Profile) (hpos : 0 < points)
    (hfind : db.profiles.lookup uid = some prof)
    (hle : points ≤ currentOf prof) :
    deduct_points db uid points reason DeductSched.allOk =
      (true, (db.insertRecord ⟨uid, -points, reason⟩).setProfile uid
        (fun p => { p with
          total_points := some (currentOf prof - points),
          level := max 1 (min 10 (1 + Int.fdiv (currentOf prof - points) 100)) })) := by
  unfold deduct_points DeductSched.allOk
  rw [if_neg (not_le.mpr hpos)]
  simp [hfind, not_lt.mpr hle]

/-- A deduction exceeding the current balance fails with the database
untouched, for every schedule of remote-call outcomes. -/
theorem deduct_points_insufficient (db : DB) (uid : String) (points : Int) (reason : String)
    (sched : DeductSched) (prof : Profile)
    (hfind : db.profiles.lookup uid = some prof)
    (hlt : currentOf prof < points) :
    deduct_points db uid points reason sched = (false, db) := by
  unfold deduct_points
  by_cases hp : points ≤ 0
  · rw [if_pos hp]
  · rw [if_neg hp]
    obtain ⟨s1, s2, s3⟩ := sched
    cases s1 <;> simp [hfind, hlt]

end Lemmas

/-- C1: for a user whose profile exists with non-negative `total_points = n`
and any `points > 0`, a successful `award_points` (all remote calls
succeeding) returns `true`, leaves `total_points = n + points` and
`level = min(10, 1 + (n + points) // 100)`. -/
theorem c1_award_points_correct (db : DB) (uid : String) (points : Int) (reason : String)
    (prof : Profile) (n : Int)
    (hfind : db.profiles.lookup uid = some prof)
    (htp : prof.total_points = some n) (_hn : 0 ≤ n) (hpos : 0 < points) :
    (award_points db uid points reason AwardSched.allOk).1 = true ∧
    (award_points db uid points reason AwardSched.allOk).2.totalPointsOf uid
      = some (some (n + points)) ∧
    (award_points db uid points reason AwardSched.allOk).2.levelOf uid
      = some (min 10 (1 + Int.fdiv (n + points) 100)) := by
  have hc : currentOf prof = n := by simp [currentOf, htp]
  rw [award_points_ok_spec db uid points reason prof hpos hfind]
  refine ⟨rfl, ?_, ?_⟩ <;>
    simp [DB.totalPointsOf, DB.levelOf, lookup_setProfile, insertRecord_profiles, hfind, hc]

/-- C1 witness: the spec scenario — `total_points = 95`, award 10 points,
ending with `total_points = 105` and `level = 2`. -/
theorem c1_witness :
    (award_points db95 "u" 10 "create post" AwardSched.allOk).1 = true ∧
    (award_points db95 "u" 10 "create post" AwardSched.allOk).2.totalPointsOf "u"
      = some (some 105) ∧
    (award_points db95 "u" 10 "create post" AwardSched.allOk).2.levelOf "u" = some 2 := by
  have h := c1_award_points_correct db95 "u" 10 "create post"
    ⟨some 95, 1, StoredDate.null, some "user"⟩ 95 (by decide) (by decide) (by decide) (by decide)
  exact ⟨h.1, by rw [h.2.1]; norm_num, by rw [h.2.2]; decide⟩

/-- C2: for a user whose profile exists with `total_points = n` and any
requested deduction `points > n`, `deduct_points` returns `false` and
leaves the whole database unchanged (no total change, no level change, no
ledger row), whatever the remote calls would have done. -/
theorem c2_deduct_points_insufficient (db : DB) (uid : String) (points : Int) (reason : String)
    (sched : DeductSched) (prof : Profile) (n : Int)
    (hfind : db.profiles.lookup uid = some prof)
    (htp : prof.total_points = some n)
    (hlt : n < points) :
    deduct_points db uid points reason sched = (false, db) := by
  have hc : currentOf prof = n := by simp [currentOf, htp]
  exact deduct_points_insufficient db uid points reason sched prof hfind (hc ▸ hlt)

/-- C2 witness: the spec scenario — `total_points = 40`, deduct 50 fails
and the database is untouched. -/
theorem c2_witness :
    deduct_points db40 "u" 50 "pin post" DeductSched.allOk = (false, db40) :=
  c2_deduct_points_insufficient db40 "u" 50 "pin post" DeductSched.allOk
    ⟨some 40, 1, StoredDate.null, some "user"⟩ 40 (by decide) (by decide) (by decide)

/-- C3: for a user whose profile exists with `total_points = n` and any
`0 < points ≤ n`, a successful `deduct_points` returns `true`, leaves
`total_points = n - points` (never negative) and
`level = max(1, min(10, 1 + (n - points) // 100))`. -/
theorem c3_deduct_points_correct (db : DB) (uid : String) (points : Int) (reason : String)
    (prof : Profile) (n : Int)
    (hfind : db.profiles.lookup uid = some prof)
    (htp : prof.total_points = some n)
    (hpos : 0 < points) (hle : points ≤ n) :
    (deduct_points db uid points reason DeductSched.allOk).1 = true ∧
    (deduct_points db uid points reason DeductSched.allOk).2.totalPointsOf uid
      = some (some (n - points)) ∧
    0 ≤ n - points ∧
    (deduct_points db uid points reason DeductSched.allOk).2.levelOf uid
      = some (max 1 (min 10 (1 + Int.fdiv (n - points) 100))) := by
  have hc : currentOf prof = n := by simp [currentOf, htp]
  rw [deduct_points_ok_spec db uid points reason prof hpos hfind (by rw [hc]; exact hle)]
  refine ⟨rfl, ?_, by omega, ?_⟩ <;>
    simp [DB.totalPointsOf, DB.levelOf, lookup_setProfile, insertRecord_profiles, hfind, hc]

/-- C3 witness: `total_points = 95`, deduct 50 succeeds leaving 45 points
at level 1. -/
theorem c3_witness :
    (deduct_points db95 "u" 50 "pin post" DeductSched.allOk).1 = true ∧
    (deduct_points db95 "u" 50 "pin post" DeductSched.allOk).2.totalPointsOf "u"
      = some (some 45) ∧
    (deduct_points db95 "u" 50 "pin post" DeductSched.allOk).2.levelOf "u" = some 1 := by
  have h := c3_deduct_points_correct db95 "u" 50 "pin post"
    ⟨some 95, 1, StoredDate.null, some "user"⟩ 95 (by decide) (by decide) (by decide) (by decide)
  exact ⟨h.1, by rw [h.2.1]; norm_num, by rw [h.2.2.2]; decide⟩

/-- A profile satisfying the invariant has its level in `1..10`. -/
theorem profileInv_level_bounds (p : Profile) (h : ProfileInv p) :
    1 ≤ p.level ∧ p.level ≤ 10 := by
  obtain ⟨n, _, hn, hl⟩ := h
  have hd : 0 ≤ Int.fdiv n 100 := Int.fdiv_nonneg hn (by norm_num)
  exact ⟨hl ▸ le_min (by norm_num) (by omega), hl ▸ min_le_left _ _⟩

/-- With a non-negative new total the deduction level formula collapses to
the award one: the `max 1` floor is inactive. -/
theorem max_level_collapse (m : Int) (hm : 0 ≤ m) :
    max 1 (min 10 (1 + Int.fdiv m 100)) = min 10 (1 + Int.fdiv m 100) := by
  have hd : 0 ≤ Int.fdiv m 100 := Int.fdiv_nonneg hm (by norm_num)
  exact max_eq_right (le_min (by norm_num) (by omega))

/-- Every `award_points` call either leaves the `profiles` table unchanged
or performs the full successful update. -/
theorem award_points_cases (db : DB) (uid : String) (pts : Int) (r : String)
    (s : AwardSched) :
    (award_points db uid pts r s).2.profiles = db.profiles ∨
    ∃ prof, db.profiles.lookup uid = some prof ∧ 0 < pts ∧
      (award_points db uid pts r s).2 =
        (db.insertRecord ⟨uid, pts, r⟩).setProfile uid
          (fun p => { p with
            total_points := some (currentOf prof + pts),
            level := min 10 (1 + Int.fdiv (currentOf prof + pts) 100) }) := by
  unfold award_points
  by_cases hp : pts ≤ 0
  · rw [if_pos hp]; exact Or.inl rfl
  · rw [if_neg hp]
    obtain ⟨s1, s2, s3⟩ := s
    cases s1 with
    | err => exact Or.inl rfl
    | exn => exact Or.inl rfl
    | ok =>
      cases s2 with
      | err => exact Or.inl rfl
      | exn => exact Or.inl rfl
      | ok =>
        cases hl : db.profiles.lookup uid with
        | none => refine Or.inl ?_; simp only [hl, insertRecord_profiles]
        | some prof =>
          cases s3 with
          | err => refine Or.inl ?_; simp only [hl, insertRecord_profiles]
          | exn => refine Or.inl ?_; simp only [hl, insertRecord_profiles]
          | ok =>
            refine Or.inr ⟨prof, rfl, by omega, ?_⟩
            simp only [hl, insertRecord_profiles]

/-- Every `deduct_points` call either leaves the `profiles` table unchanged
or performs the full successful update. -/
theorem deduct_points_cases (db : DB) (uid : String) (pts : Int) (r : String)
    (s : DeductSched) :
    (deduct_points db uid pts r s).2.profiles = db.profiles ∨
    ∃ prof, db.profiles.lookup uid = some prof ∧ 0 < pts ∧ pts ≤ currentOf prof ∧
      (deduct_points db uid pts r s).2 =
        (db.insertRecord ⟨uid, -pts, r⟩).setProfile uid
          (fun p => { p with
            total_points := some (currentOf prof - pts),
            level := max 1 (min 10 (1 + Int.fdiv (currentOf prof - pts) 100)) }) := by
  unfold deduct_points
  by_cases hp : pts ≤ 0
  · rw [if_pos hp]; exact Or.inl rfl
  · rw [if_neg hp]
    obtain ⟨s1, s2, s3⟩ := s
    cases s1 with
    | err => exact Or.inl rfl
    | exn => exact Or.inl rfl
    | ok =>
      cases hl : db.profiles.lookup uid with
      | none => refine Or.inl ?_; simp only [hl, insertRecord_profiles]
      | some prof =>
        by_cases hlt : currentOf prof < pts
        · refine Or.inl ?_; simp only [hl, if_pos hlt, insertRecord_profiles]
        · cases s2 with
          | err => refine Or.inl ?_; simp only [hl, if_neg hlt, insertRecord_profiles]
          | exn => refine Or.inl ?_; simp only [hl, if_neg hlt, insertRecord_profiles]
          | ok =>
            cases s3 with
            | err => refine Or.inl ?_; simp only [hl, if_neg hlt, insertRecord_profiles]
            | exn => refine Or.inl ?_; simp only [hl, if_neg hlt, insertRecord_profiles]
            | ok =>
              refine Or.inr ⟨prof, rfl, by omega, by omega, ?_⟩
              simp only [hl, if_neg hlt, insertRecord_profiles]

/-- C4: the profile invariant `total_points ≥ 0 ∧ level = min(10, 1 +
total_points // 100)` is preserved by every `award_points` and every
`deduct_points` call, successful or failed, and forces the level into
`1..10`. -/
theorem c4_invariant_preserved (db : DB) (uid : String)
    (pa pd : Int) (ra rd : String) (sa : AwardSched) (sd : DeductSched)
    (hinv : ∀ p, db.profiles.lookup uid = some p → ProfileInv p) :
    (∀ q, (award_points db uid pa ra sa).2.profiles.lookup uid = some q →
      ProfileInv q ∧ 1 ≤ q.level ∧ q.level ≤ 10) ∧
    (∀ q, (deduct_points db uid pd rd sd).2.profiles.lookup uid = some q →
      ProfileInv q ∧ 1 ≤ q.level ∧ q.level ≤ 10) := by
  constructor
  · intro q hq
    have hinvq : ProfileInv q := by
      rcases award_points_cases db uid pa ra sa with hsame | ⟨prof, hfind, hpos, heq⟩
      · rw [hsame] at hq; exact hinv q hq
      · rw [heq, lookup_setProfile, insertRecord_profiles, hfind, Option.map_some'] at hq
        obtain ⟨n, htp, hn, _⟩ := hinv prof hfind
        have hc : currentOf prof = n := by simp [currentOf, htp]
        obtain rfl := (Option.some.inj hq).symm
        exact ⟨n + pa, by simp [hc], by omega, by simp [hc]⟩
    exact ⟨hinvq, profileInv_level_bounds q hinvq⟩
  · intro q hq
    have hinvq : ProfileInv q := by
      rcases deduct_points_cases db uid pd rd sd with hsame | ⟨prof, hfind, hpos, hle, heq⟩
      · rw [hsame] at hq; exact hinv q hq
      · rw [heq, lookup_setProfile, insertRecord_profiles, hfind, Option.map_some'] at hq
        obtain ⟨n, htp, hn, _⟩ := hinv prof hfind
        have hc : currentOf prof = n := by simp [currentOf, htp]
        obtain rfl := (Option.some.inj hq).symm
        refine ⟨n - pd, by simp [hc], by omega, ?_⟩
        simp only [hc]
        exact max_level_collapse (n - pd) (by omega)
    exact ⟨hinvq, profileInv_level_bounds q hinvq⟩

/-- C4 witness: starting from the invariant-satisfying `db95`, the profile
produced by a successful award of 10 points still satisfies the invariant
with its level in range. -/
theorem c4_witness :
    ProfileInv ⟨some 105, 2, StoredDate.null, some "user"⟩ ∧
    1 ≤ (Profile.mk (some 105) 2 StoredDate.null (some "user")).level ∧
    (Profile.mk (some 105) 2 StoredDate.null (some "user")).level ≤ 10 := by
  have hinv : ∀ p, db95.profiles.lookup "u" = some p → ProfileInv p := by
    intro p hp
    have he : db95.profiles.lookup "u" = some ⟨some 95, 1, StoredDate.null, some "user"⟩ := by
      decide
    rw [he] at hp
    obtain rfl := (Option.some.inj hp).symm
    exact ⟨95, rfl, by norm_num, by decide⟩
  exact (c4_invariant_preserved db95 "u" 10 10 "create post" "pin post"
      AwardSched.allOk DeductSched.allOk hinv).1
    ⟨some 105, 2, StoredDate.null, some "user"⟩ (by decide)

/-- An eligible all-successful `check_daily_login` stamps the date and then
delegates to `award_points` on the stamped database. -/
theorem check_daily_login_ok_spec (db : DB) (uid : String) (today : Int) (prof : Profile)
    (hfind : db.profiles.lookup uid = some prof)
    (hnew : prof.last_login_date ≠ StoredDate.valid today) :
    check_daily_login db uid today DailySched.allOk =
      award_points (db.setProfile uid
          (fun p => { p with last_login_date := StoredDate.valid today }))
        uid 1 "每日登录" AwardSched.allOk := by
  unfold check_daily_login DailySched.allOk
  simp only [hfind]
  have hne : (match prof.last_login_date with
      | StoredDate.null => (none : Option Int)
      | StoredDate.valid d => some d
      | StoredDate.malformed => none) ≠ some today := by
    cases h : prof.last_login_date with
    | null => simp
    | malformed => simp
    | valid d =>
      simp only [Option.some.injEq]
      intro hd
      exact hnew (by rw [h, Option.some.inj hd])
  rw [if_neg hne]

/-- Full closed form of an eligible all-successful `check_daily_login`:
returns `true`, stamps the date, appends the one-point ledger row and
rewrites the profile. -/
theorem check_daily_login_full (db : DB) (uid : String) (today : Int)
    (prof : Profile) (n : Int)
    (hfind : db.profiles.lookup uid = some prof)
    (htp : prof.total_points = some n)
    (hnew : prof.last_login_date ≠ StoredDate.valid today) :
    check_daily_login db uid today DailySched.allOk = (true,
      ((db.setProfile uid (fun p => { p with
          last_login_date := StoredDate.valid today })).insertRecord
            ⟨uid, 1, "每日登录"⟩).setProfile uid
        (fun p => { p with
          total_points := some (n + 1),
          level := min 10 (1 + Int.fdiv (n + 1) 100) })) := by
  rw [check_daily_login_ok_spec db uid today prof hfind hnew]
  have hfind1 : (db.setProfile uid (fun p => { p with
      last_login_date := StoredDate.valid today })).profiles.lookup uid
        = some { prof with last_login_date := StoredDate.valid today } := by
    rw [lookup_setProfile, hfind]; rfl
  rw [award_points_ok_spec _ uid 1 "每日登录" _ (by norm_num) hfind1]
  have hc : currentOf { prof with last_login_date := StoredDate.valid today } = n := by
    simp [currentOf, htp]
  rw [hc]

/-- When the stored login date already equals today, `check_daily_login`
returns `false` and changes nothing, whatever the schedule. -/
theorem check_daily_login_already (db : DB) (uid : String) (today : Int)
    (prof : Profile) (s : DailySched)
    (hfind : db.profiles.lookup uid = some prof)
    (hold : prof.last_login_date = StoredDate.valid today) :
    check_daily_login db uid today s = (false, db) := by
  unfold check_daily_login
  obtain ⟨s1, s2, sa⟩ := s
  cases s1 with
  | err => rfl
  | exn => rfl
  | ok => simp [hfind, hold]

/-- Over any run of eligible days (each differing from the previously
stamped one), one all-successful `check_daily_login` per day adds exactly
one point per day. -/
theorem dailyLoginRun_total :
    ∀ (days : List Int) (db : DB) (uid : String) (prof : Profile) (n : Int),
      db.profiles.lookup uid = some prof →
      prof.total_points = some n →
      freshDays prof.last_login_date days = true →
      (dailyLoginRun db uid days).totalPointsOf uid = some (some (n + days.length)) := by
  intro days
  induction days with
  | nil =>
    intro db uid prof n hfind htp _
    simp [dailyLoginRun, DB.totalPointsOf, hfind, htp]
  | cons d rest ih =>
    intro db uid prof n hfind htp hfresh
    rw [freshDays, Bool.and_eq_true, decide_eq_true_iff] at hfresh
    obtain ⟨hne, hrest⟩ := hfresh
    have hfull := check_daily_login_full db uid d prof n hfind htp hne
    show (dailyLoginRun (check_daily_login db uid d DailySched.allOk).2 uid rest).totalPointsOf uid
      = _
    rw [hfull]
    have hfind2 : (((db.setProfile uid (fun p => { p with
        last_login_date := StoredDate.valid d })).insertRecord
          ⟨uid, 1, "每日登录"⟩).setProfile uid
        (fun p => { p with
          total_points := some (n + 1),
          level := min 10 (1 + Int.fdiv (n + 1) 100) })).profiles.lookup uid
        = some ⟨some (n + 1), min 10 (1 + Int.fdiv (n + 1) 100),
            StoredDate.valid d, prof.role⟩ := by
      rw [lookup_setProfile, insertRecord_profiles, lookup_setProfile, hfind]; rfl
    have hrun := ih _ uid _ (n + 1) hfind2 rfl hrest
    rw [hrun]
    simp only [Option.some.injEq, List.length_cons]
    omega

/-- C5: on a fixed day, the first eligible all-successful
`check_daily_login` awards exactly one point and stamps the date, the
second call the same day returns `false` and changes nothing; over any run
of distinct days, one call per day adds exactly one point per day. -/
theorem c5_daily_login_idempotent (db : DB) (uid : String) (today : Int)
    (prof : Profile) (n : Int)
    (hfind : db.profiles.lookup uid = some prof)
    (htp : prof.total_points = some n)
    (hnew : prof.last_login_date ≠ StoredDate.valid today) :
    (check_daily_login db uid today DailySched.allOk).1 = true ∧
    (check_daily_login db uid today DailySched.allOk).2.totalPointsOf uid
      = some (some (n + 1)) ∧
    (check_daily_login db uid today DailySched.allOk).2.lastLoginOf uid
      = some (StoredDate.valid today) ∧
    check_daily_login (check_daily_login db uid today DailySched.allOk).2 uid today
        DailySched.allOk
      = (false, (check_daily_login db uid today DailySched.allOk).2) ∧
    (∀ days : List Int, freshDays prof.last_login_date days = true →
      (dailyLoginRun db uid days).totalPointsOf uid = some (some (n + days.length))) := by
  have hfull := check_daily_login_full db uid today prof n hfind htp hnew
  have hfind2 : (check_daily_login db uid today DailySched.allOk).2.profiles.lookup uid
      = some ⟨some (n + 1), min 10 (1 + Int.fdiv (n + 1) 100),
          StoredDate.valid today, prof.role⟩ := by
    rw [hfull, lookup_setProfile, insertRecord_profiles, lookup_setProfile, hfind]; rfl
  refine ⟨by rw [hfull], ?_, ?_, ?_, ?_⟩
  · rw [DB.totalPointsOf, hfind2]; rfl
  · rw [DB.lastLoginOf, hfind2]; rfl
  · exact check_daily_login_already _ uid today _ DailySched.allOk hfind2 rfl
  · intro days hdays
    exact dailyLoginRun_total days db uid prof n hfind htp hdays

/-- C5 witness: starting from `db95` (95 points, no login stamp), the first
call on day 7 awards a point (96 total), the second call the same day is a
no-op returning `false`; three calls on days 1, 2, 3 award three points. -/
theorem c5_witness :
    (check_daily_login db95 "u" 7 DailySched.allOk).1 = true ∧
    (check_daily_login db95 "u" 7 DailySched.allOk).2.totalPointsOf "u"
      = some (some 96) ∧
    check_daily_login (check_daily_login db95 "u" 7 DailySched.allOk).2 "u" 7
        DailySched.allOk
      = (false, (check_daily_login db95 "u" 7 DailySched.allOk).2) ∧
    (dailyLoginRun db95 "u" [1, 2, 3]).totalPointsOf "u" = some (some 98) := by
  have h := c5_daily_login_idempotent db95 "u" 7
    ⟨some 95, 1, StoredDate.null, some "user"⟩ 95 (by decide) (by decide) (by decide)
  refine ⟨h.1, by rw [h.2.1]; norm_num, h.2.2.2.1, ?_⟩
  have h5 := h.2.2.2.2 [1, 2, 3] (by decide)
  rw [h5]; decide

/-- C6: with both queries succeeding, `_is_admin` returns `true` exactly
when an active `admins` row exists or the profile role is one of
admin/moderator/superadmin; in particular an active `admins` row with
`role = "user"` is admin, a moderator with no `admins` row is admin, and a
plain user is not. -/
theorem c6_is_admin_characterization :
    (∀ db uid, is_admin db uid AdminSched.allOk = true ↔
      (activeAdminExists db uid = true ∨ roleIsPrivileged (profileRole db uid) = true)) ∧
    is_admin dbAdminUser "u" AdminSched.allOk = true ∧
    is_admin dbModerator "u" AdminSched.allOk = true ∧
    is_admin dbPlainUser "u" AdminSched.allOk = false := by
  refine ⟨?_, by decide, by decide, by decide⟩
  intro db uid
  unfold is_admin AdminSched.allOk
  cases hb : activeAdminExists db uid <;> simp [hb]

/-- C7: the role resolvers are fail-closed — `_is_admin` can only answer
`true` out of a *successful* granting query (an active-admin hit with the
`admins` query succeeding and no exception, or a privileged role with the
profile query succeeding); `_is_superadmin` answers `false` whenever its
single query fails. -/
theorem c7_fail_closed :
    (∀ db uid s, is_admin db uid s = true →
      (s.adminQ = StepResult.ok ∧ activeAdminExists db uid = true) ∨
      (s.profQ = StepResult.ok ∧ s.adminQ ≠ StepResult.exn ∧
        roleIsPrivileged (profileRole db uid) = true)) ∧
    (∀ db uid q, q ≠ StepResult.ok → is_superadmin db uid q = false) := by
  constructor
  · intro db uid s h
    obtain ⟨a, p⟩ := s
    cases a with
    | exn => simp [is_admin] at h
    | err =>
      cases p with
      | exn => simp [is_admin] at h
      | err => simp [is_admin] at h
      | ok =>
        simp only [is_admin] at h
        exact Or.inr ⟨rfl, by decide, h⟩
    | ok =>
      cases hb : activeAdminExists db uid with
      | true => exact Or.inl ⟨rfl, rfl⟩
      | false =>
        cases p with
        | exn => simp [is_admin, hb] at h
        | err => simp [is_admin, hb] at h
        | ok =>
          simp only [is_admin, hb] at h
          simp only [Bool.false_eq_true, if_false] at h
          exact Or.inr ⟨rfl, by decide, h⟩
  · intro db uid q hq
    cases q with
    | ok => exact absurd rfl hq
    | err => rfl
    | exn => rfl

/-- C7 witness: an active-admin hit under the all-successful schedule
yields a granting successful query, and a failing query makes
`_is_superadmin` answer `false`. -/
theorem c7_witness :
    ((AdminSched.allOk.adminQ = StepResult.ok ∧ activeAdminExists dbAdminUser "u" = true) ∨
      (AdminSched.allOk.profQ = StepResult.ok ∧ AdminSched.allOk.adminQ ≠ StepResult.exn ∧
        roleIsPrivileged (profileRole dbAdminUser "u") = true)) ∧
    is_superadmin dbModerator "u" StepResult.err = false :=
  ⟨c7_fail_closed.1 dbAdminUser "u" AdminSched.allOk (by decide),
   c7_fail_closed.2 dbModerator "u" StepResult.err (by decide)⟩

/-- C8 counterexample: with the date-stamp update returning an error
response (profile of user `u` readable, no prior login), the claim says
`check_daily_login` returns `false` and awards nothing; the code instead
still awards the daily point (one new ledger row) and returns `true`. -/
theorem c8_counterexample :
    (check_daily_login dbPlainUser "u" 5
        ⟨StepResult.ok, StepResult.err, AwardSched.allOk⟩).1 = true ∧
    (check_daily_login dbPlainUser "u" 5
        ⟨StepResult.ok, StepResult.err, AwardSched.allOk⟩).2.point_records.length
      = dbPlainUser.point_records.length + 1 := by
  decide

/-- C8 (amended): only a *raised exception* during `check_daily_login`
makes it return `false` with no award; a date-stamp update that merely
reports an error is logged and the award still proceeds (without the
stamp), and a stored login date that fails to parse is treated as "not
logged in today", i.e. eligible, with the award proceeding after the
stamp. -/
theorem c8_amended (db : DB) (uid : String) (today : Int) (s : DailySched) :
    (s.updateDate = StepResult.exn → check_daily_login db uid today s = (false, db)) ∧
    (∀ prof, s.selectProf = StepResult.ok → s.updateDate = StepResult.err →
      db.profiles.lookup uid = some prof →
      prof.last_login_date ≠ StoredDate.valid today →
      check_daily_login db uid today s = award_points db uid 1 "每日登录" s.award) ∧
    (∀ prof, s.selectProf = StepResult.ok → s.updateDate = StepResult.ok →
      db.profiles.lookup uid = some prof →
      prof.last_login_date = StoredDate.malformed →
      check_daily_login db uid today s =
        award_points (db.setProfile uid
            (fun p => { p with last_login_date := StoredDate.valid today }))
          uid 1 "每日登录" s.award) := by
  obtain ⟨s1, s2, sa⟩ := s
  refine ⟨?_, ?_, ?_⟩
  · intro h2
    cases h2
    unfold check_daily_login
    cases s1 with
    | err => rfl
    | exn => rfl
    | ok =>
      cases hl : db.profiles.lookup uid with
      | none => simp only [hl]
      | some prof =>
        simp only [hl]
        by_cases hd : (match prof.last_login_date with
            | StoredDate.null => (none : Option Int)
            | StoredDate.valid d => some d
            | StoredDate.malformed => none) = some today
        · rw [if_pos hd]
        · rw [if_neg hd]
  · intro prof h1 h2 hl hnew
    cases h1; cases h2
    unfold check_daily_login
    simp only [hl]
    have hne : (match prof.last_login_date with
        | StoredDate.null => (none : Option Int)
        | StoredDate.valid d => some d
        | StoredDate.malformed => none) ≠ some today := by
      cases h : prof.last_login_date with
      | null => simp
      | malformed => simp
      | valid d =>
        simp only [Option.some.injEq]
        intro hd
        exact hnew (by rw [h, Option.some.inj hd])
    rw [if_neg hne]
  · intro prof h1 h2 hl hmal
    cases h1; cases h2
    unfold check_daily_login
    simp only [hl, hmal]
    rw [if_neg (by simp)]

/-- C8 witness: an exception during the date-stamp update yields `false`
with no state change, and a malformed stored date is treated as eligible
with the award proceeding. -/
theorem c8_witness :
    check_daily_login dbPlainUser "u" 5
        ⟨StepResult.ok, StepResult.exn, AwardSched.allOk⟩ = (false, dbPlainUser) ∧
    check_daily_login dbMalformed "u" 5 DailySched.allOk =
      award_points (dbMalformed.setProfile "u"
          (fun p => { p with last_login_date := StoredDate.valid 5 }))
        "u" 1 "每日登录" AwardSched.allOk :=
  ⟨(c8_amended dbPlainUser "u" 5 ⟨StepResult.ok, StepResult.exn, AwardSched.allOk⟩).1 rfl,
   (c8_amended dbMalformed "u" 5 DailySched.allOk).2.2
     ⟨some 0, 1, StoredDate.malformed, some "user"⟩ rfl rfl (by decide) (by decide)⟩

/-- C9: if the ledger insert succeeds but the profile update fails,
`award_points` returns `false`, the inserted `PointRecord` is not rolled
back, and `total_points`/`level` are unchanged — audit/balance mismatch. -/
theorem c9_award_no_rollback (db : DB) (uid : String) (points : Int) (reason : String)
    (prof : Profile) (s3 : StepResult)
    (hpos : 0 < points)
    (hfind : db.profiles.lookup uid = some prof)
    (hfail : s3 ≠ StepResult.ok) :
    (award_points db uid points reason ⟨StepResult.ok, StepResult.ok, s3⟩).1 = false ∧
    (award_points db uid points reason ⟨StepResult.ok, StepResult.ok, s3⟩).2.point_records
      = db.point_records ++ [⟨uid, points, reason⟩] ∧
    (award_points db uid points reason ⟨StepResult.ok, StepResult.ok, s3⟩).2.profiles
      = db.profiles := by
  unfold award_points
  rw [if_neg (not_le.mpr hpos)]
  cases s3 with
  | ok => exact absurd rfl hfail
  | err => simp [hfind, insertRecord_profiles, DB.insertRecord]
  | exn => simp [hfind, insertRecord_profiles, DB.insertRecord]

/-- C9 witness: awarding 10 points to `u` in `db95` with a failing profile
update returns `false` leaving the new ledger row behind and the profile
untouched. -/
theorem c9_witness :
    (award_points db95 "u" 10 "create post"
        ⟨StepResult.ok, StepResult.ok, StepResult.err⟩).1 = false ∧
    (award_points db95 "u" 10 "create post"
        ⟨StepResult.ok, StepResult.ok, StepResult.err⟩).2.point_records
      = db95.point_records ++ [⟨"u", 10, "create post"⟩] ∧
    (award_points db95 "u" 10 "create post"
        ⟨StepResult.ok, StepResult.ok, StepResult.err⟩).2.profiles = db95.profiles :=
  c9_award_no_rollback db95 "u" 10 "create post"
    ⟨some 95, 1, StoredDate.null, some "user"⟩ StepResult.err
    (by decide) (by decide) (by decide)

/-- C10: a profile whose stored `total_points` is `NULL` is treated as
balance 0 — `award_points` with `points > 0` ends with exactly `points`
(level recomputed from it), and every `deduct_points` with `points > 0`
fails with the database unchanged. -/
theorem c10_null_total_is_zero (db : DB) (uid : String) (points : Int) (reason : String)
    (prof : Profile)
    (hpos : 0 < points)
    (hfind : db.profiles.lookup uid = some prof)
    (htp : prof.total_points = none) :
    ((award_points db uid points reason AwardSched.allOk).1 = true ∧
      (award_points db uid points reason AwardSched.allOk).2.totalPointsOf uid
        = some (some points) ∧
      (award_points db uid points reason AwardSched.allOk).2.levelOf uid
        = some (min 10 (1 + Int.fdiv points 100))) ∧
    (∀ s : DeductSched, deduct_points db uid points reason s = (false, db)) := by
  have hc : currentOf prof = 0 := by simp [currentOf, htp]
  constructor
  · rw [award_points_ok_spec db uid points reason prof hpos hfind]
    refine ⟨rfl, ?_, ?_⟩ <;>
      simp [DB.totalPointsOf, DB.levelOf, lookup_setProfile, insertRecord_profiles, hfind, hc]
  · intro s
    exact deduct_points_insufficient db uid points reason s prof hfind (by omega)

/-- C10 witness: in `dbNull` (stored `total_points` is `NULL`), awarding 10
points yields `total_points = 10` at level 1, and deducting 10 fails with
the database unchanged. -/
theorem c10_witness :
    ((award_points dbNull "u" 10 "create post" AwardSched.allOk).1 = true ∧
      (award_points dbNull "u" 10 "create post" AwardSched.allOk).2.totalPointsOf "u"
        = some (some 10) ∧
      (award_points dbNull "u" 10 "create post" AwardSched.allOk).2.levelOf "u"
        = some 1) ∧
    deduct_points dbNull "u" 10 "pin post" DeductSched.allOk = (false, dbNull) := by
  have ha := c10_null_total_is_zero dbNull "u" 10 "create post"
    ⟨none, 1, StoredDate.null, some "user"⟩ (by decide) (by decide) (by decide)
  have hd := c10_null_total_is_zero dbNull "u" 10 "pin post"
    ⟨none, 1, StoredDate.null, some "user"⟩ (by decide) (by decide) (by decide)
  exact ⟨⟨ha.1.1, ha.1.2.1, by rw [ha.1.2.2]; decide⟩, hd.2 DeductSched.allOk⟩

end Forum
